import Mathlib

/-!
Verification of the `nnpde` problem-orchestration layer (`nnpde/problems.py`)
against its specification.

A grid field (torch tensor of shape `[1, 1, N, N]` in the source) is embedded
as a list of rows of rationals; the two leading singleton batch dimensions
carry no information and are dropped.  A boundary mask is a list of rows of
booleans.  Out-of-range cell access, which in the source surfaces as a fatal
runtime error of the tensor library, is embedded as `Option.none`.

The modules `nnpde.geometries`, `nnpde.iterative_methods` and
`nnpde.utils.misc` are imported by `problems.py` but their sources are not
part of the visible repository; the definitions below that stand for them are
modelled from the specification text and are marked as such in their doc
comments.  `problems.py` itself is embedded statement by statement.
-/

set_option autoImplicit false

/-- Grid field: a dense 2D array of rationals (rows of cells). -/
abbrev Grid : Type := List (List ℚ)

/-- Boundary mask: a 2D array of booleans marking Dirichlet boundary cells. -/
abbrev Mask : Type := List (List Bool)

/-- Cell access `g[i][j]`; `none` when an index is out of range (the embedded
image of a fatal indexing / shape error of the tensor library). -/
def cell? {α : Type} (g : List (List α)) (i j : Nat) : Option α :=
  (g[i]?).bind fun r => r[j]?

/-- Build an `N × N` array from a cell-valued function. -/
def mkGrid {α : Type} (N : Nat) (v : Nat → Nat → α) : List (List α) :=
  (List.range N).map fun i => (List.range N).map fun j => v i j

/-- An array has shape `N × N`. -/
def isGrid {α : Type} (N : Nat) (g : List (List α)) : Prop :=
  g.length = N ∧ ∀ r ∈ g, r.length = N

/-- Cell `(i, j)` lies on the outer perimeter of an `N × N` grid. -/
def on_square_boundary (N i j : Nat) : Bool :=
  decide (i = 0 ∨ j = 0 ∨ i = N - 1 ∨ j = N - 1)

/-- Cell `(i, j)` lies in the internal notch/step region that the L-shaped
domain removes from the square (the closed upper-right quadrant). -/
def in_l_notch (N i j : Nat) : Bool :=
  decide (i ≤ N / 2 ∧ N / 2 ≤ j)

/-- Cell `(i, j)` is a boundary cell of the L-shaped domain: outer perimeter
together with the internal notch region. -/
def on_l_boundary (N i j : Nat) : Bool :=
  on_square_boundary N i j || in_l_notch N i j

/-- Modelled from the spec: `nnpde.geometries.square_geometry` is not in the
visible source.  Per §4.1 the mask marks the outer perimeter cells of the
`N × N` grid as boundary, and the boundary values are fixed deterministic
numbers on the boundary (a constant convention is taken here: `1`) and zero
elsewhere. -/
def square_geometry (N : Nat) : Mask × Grid :=
  (mkGrid N fun i j => on_square_boundary N i j,
   mkGrid N fun i j => if on_square_boundary N i j then (1 : ℚ) else 0)

/-- Modelled from the spec: `nnpde.geometries.l_shaped_geometry` is not in the
visible source.  Per §4.1 the mask marks the outer perimeter cells and an
internal notch/step region as boundary; boundary values are a fixed
deterministic convention (`1`) on boundary cells and zero elsewhere. -/
def l_shaped_geometry (N : Nat) : Mask × Grid :=
  (mkGrid N fun i j => on_l_boundary N i j,
   mkGrid N fun i j => if on_l_boundary N i j then (1 : ℚ) else 0)

/-- Modelled from the spec: `nnpde.utils.misc.normal_distributed_tensor` is
not in the visible source; per §4.4 it supplies a randomly sampled `N × N`
initial field.  No claim depends on the sampled values, so the draw is
represented by a fixed deterministic `N × N` field (the `requires_grad`
bookkeeping of the source has no observable numeric effect and is dropped). -/
def normal_distributed_tensor (N : Nat) : Grid :=
  mkGrid N fun _ _ => (1 : ℚ) / 2

/-- The all-zero `N × N` field (`torch.zeros(1, 1, N, N)` in the source). -/
def torch_zeros (N : Nat) : Grid :=
  mkGrid N fun _ _ => (0 : ℚ)

/-- Modelled from the spec: the grid-spacing-squared factor scaling the
right-hand-side correction term of the stencil (§4.2).  Its concrete value is
not fixed by the spec and no claim depends on it; it is taken to be `1`. -/
def grid_spacing_sq : ℚ := 1

/-- Build one row of an iteration result: cell `j0 + j` of the row is
produced by `cellFn` from the mask entry at that cell; a failing cell aborts
the whole row (fatal error propagation). -/
def buildRow (cellFn : Nat → Bool → Option ℚ) : Nat → List Bool → Option (List ℚ)
  | _, [] => some []
  | j, b :: bs =>
    match cellFn j b, buildRow cellFn (j + 1) bs with
    | some x, some xs => some (x :: xs)
    | _, _ => none

/-- Build a full iteration result over the shape of the mask, row `i0 + i`
coming from mask row `i`; a failing cell aborts the whole result. -/
def buildGrid (cellFn : Nat → Nat → Bool → Option ℚ) : Nat → List (List Bool) → Option Grid
  | _, [] => some []
  | i, r :: rs =>
    match buildRow (cellFn i) 0 r, buildGrid cellFn (i + 1) rs with
    | some xs, some vs => some (xs :: vs)
    | _, _ => none

/-- Modelled from the spec: one iteration of the relaxation solver of
`nnpde.iterative_methods` (§4.2).  Every non-masked cell takes the average of
its four axis neighbours in the previous field minus the right-hand-side
correction scaled by the grid spacing squared; every masked cell takes the
boundary value, discarding the stencil.  A reference to a neighbour outside
the grid, or any shape disagreement between mask, boundary values,
right-hand side and field, is a fatal error (`none`). -/
def jacobi_cell (B f u : Grid) (i j : Nat) (b : Bool) : Option ℚ :=
  if b then cell? B i j
  else do
    let up ← if i = 0 then none else cell? u (i - 1) j
    let dn ← cell? u (i + 1) j
    let lf ← if j = 0 then none else cell? u i (j - 1)
    let rt ← cell? u i (j + 1)
    let fc ← cell? f i j
    pure ((up + dn + lf + rt) / 4 - grid_spacing_sq * fc)

/-- Modelled from the spec: one full iteration of the relaxation solver,
assembling `jacobi_cell` over the shape of the mask. -/
def jacobi_iteration (B_idx : Mask) (B f u : Grid) : Option Grid :=
  buildGrid (jacobi_cell B f u) 0 B_idx

/-- Modelled from the spec: `nnpde.iterative_methods.jacobi_method` (§4.2).
Starting from `u`, exactly `k` iterations are performed with no convergence
check; a fatal error in any iteration aborts the whole call. -/
def jacobi_method (B_idx : Mask) (B f u : Grid) : Nat → Option Grid
  | 0 => some u
  | k + 1 => (jacobi_method B_idx B f u k).bind (jacobi_iteration B_idx B f)

/-- Modelled from the spec: one iteration of the hybrid solver of
`nnpde.iterative_methods` (§4.3).  The external operator is applied to the
current field and the fixed right-hand side to obtain a candidate field, and
boundary cells of the candidate are overwritten with the boundary values;
a candidate of the wrong shape is a fatal error (`none`). -/
def H_cell (net : Grid → Grid → Grid) (B f u : Grid) (i j : Nat) (b : Bool) : Option ℚ :=
  if b then cell? B i j else cell? (net u f) i j

/-- Modelled from the spec: one full iteration of the hybrid solver,
assembling `H_cell` over the shape of the mask. -/
def H_iteration (net : Grid → Grid → Grid) (B_idx : Mask) (B f u : Grid) : Option Grid :=
  buildGrid (H_cell net B f u) 0 B_idx

/-- Modelled from the spec: `nnpde.iterative_methods.H_method` (§4.3).
Starting from `u`, exactly `k` iterations of the hybrid step are performed. -/
def H_method (net : Grid → Grid → Grid) (B_idx : Mask) (B f u : Grid) : Nat → Option Grid
  | 0 => some u
  | k + 1 => (H_method net B_idx B f u k).bind (H_iteration net B_idx B f)

/-- Embeds Python `str.lower()` as a per-character map over the string's
characters.  (Core `String.toLower` is the same function extensionally, but
it is defined by well-founded recursion on byte positions and therefore does
not reduce during kernel evaluation; this structural form does.) -/
def str_lower (s : String) : String :=
  String.mk (s.data.map Char.toLower)

/-- Python exceptions that the orchestration layer can surface.
`valueError` is raised by the constructor with the message
"no such domain_type known, try either `square` or `l_shape`";
`attributeError` is the read of a never-assigned instance attribute;
`runtimeError` stands for a fatal error of the tensor library inside a
solver call (shape mismatch / out-of-range access). -/
inductive PyError : Type where
  | valueError : PyError
  | attributeError : PyError
  | runtimeError : PyError
deriving DecidableEq, Repr

/-- Arguments of `DirichletProblem.__init__`, with the Python default value
of every parameter as the default field value. -/
structure InitArgs : Type where
  B_idx : Option Mask := none
  B : Option Grid := none
  f : Option Grid := none
  k : Nat := 20
  k_ground_truth : Nat := 1000
  initial_ground_truth : Option Grid := none
  initial_u : Option Grid := none
  domain_type : String := "square"
  N : Nat := 16
deriving DecidableEq, Repr

/-- The attribute dictionary of a `DirichletProblem` object while
`__init__` is running: a Python attribute that has not been assigned yet is
`none`, and reading it raises `AttributeError`.  Fields are listed in
assignment order.  (`_ground_truth` is assigned the Python value `None`,
hence its doubly-optional type.) -/
structure PartialInstance : Type where
  B_idx : Option Mask := none
  B : Option Grid := none
  f : Option Grid := none
  initial_ground_truth : Option Grid := none
  k_ground_truth : Option Nat := none
  _ground_truth : Option (Option Grid) := none
  initial_u : Option Grid := none
  k : Option Nat := none
  ground_truth : Option Grid := none
deriving DecidableEq, Repr

/-- Embeds the geometry branch of `DirichletProblem.__init__`
(problems.py lines 58–65): when no explicit mask is supplied the lowered
domain-type selector is dispatched to a geometry generator, an unrecognized
selector raising `ValueError`; when an explicit mask is supplied the whole
branch is skipped — note that the source assigns `self.B_idx`/`self.B` in no
other place, so in that case they are never assigned. -/
def geomStep (args : InitArgs) : PartialInstance × Option PyError :=
  match args.B_idx with
  | some _ => ({}, none)
  | none =>
    if str_lower args.domain_type = "square" then
      ({ B_idx := some (square_geometry args.N).1, B := some (square_geometry args.N).2 }, none)
    else if str_lower args.domain_type = "l_shape" then
      ({ B_idx := some (l_shaped_geometry args.N).1, B := some (l_shaped_geometry args.N).2 }, none)
    else
      ({}, some PyError.valueError)

/-- Embeds the final statement of `DirichletProblem.__init__`
(problems.py lines 90–92): the eager ground-truth computation
`self.ground_truth = im.jacobi_method(self.B_idx, self.B, self.f,
self.initial_ground_truth, self.k_ground_truth)`.  Each attribute read
raises `AttributeError` if the attribute was never assigned, and a fatal
solver error propagates. -/
def ground_truth_step (s : PartialInstance) : PartialInstance × Option PyError :=
  match s.B_idx with
  | none => (s, some PyError.attributeError)
  | some bidx =>
    match s.B with
    | none => (s, some PyError.attributeError)
    | some b =>
      match s.f with
      | none => (s, some PyError.attributeError)
      | some fv =>
        match s.initial_ground_truth with
        | none => (s, some PyError.attributeError)
        | some ig =>
          match s.k_ground_truth with
          | none => (s, some PyError.attributeError)
          | some kg =>
            match jacobi_method bidx b fv ig kg with
            | none => (s, some PyError.runtimeError)
            | some gt => ({ s with ground_truth := some gt }, none)

/-- Embeds `DirichletProblem.__init__` as a whole: after the geometry branch,
the right-hand side defaults to the all-zero field, both initial fields
default to sampled fields, the iteration counts and the `_ground_truth`
placeholder are assigned (none of which can fail), and finally the eager
ground-truth computation runs.  The result is the attribute state reached
together with the exception raised, if any. -/
def initState (args : InitArgs) : PartialInstance × Option PyError :=
  match geomStep args with
  | (s1, some e) => (s1, some e)
  | (s1, none) =>
    ground_truth_step
      { s1 with
        f := some (args.f.getD (torch_zeros args.N)),
        initial_ground_truth :=
          some (args.initial_ground_truth.getD (normal_distributed_tensor args.N)),
        k_ground_truth := some args.k_ground_truth,
        _ground_truth := some none,
        initial_u := some (args.initial_u.getD (normal_distributed_tensor args.N)),
        k := some args.k }

/-- A fully constructed `DirichletProblem` instance: every attribute that a
successful `__init__` assigns, plus the approximate-solution cache `u`,
which `__init__` leaves absent (`none`) and `compute_solution` writes. -/
structure DirichletProblem : Type where
  B_idx : Mask
  B : Grid
  f : Grid
  initial_ground_truth : Grid
  k_ground_truth : Nat
  _ground_truth : Option Grid
  initial_u : Grid
  k : Nat
  ground_truth : Grid
  u : Option Grid := none
deriving DecidableEq, Repr

/-- Construction of a `DirichletProblem`: run `__init__` and package the
attribute state into an instance on success.  The catch-all arm is
unreachable for states produced by a non-raising `initState`, since such a
run assigns every attribute. -/
def DirichletProblem.new (args : InitArgs) : Except PyError DirichletProblem :=
  match initState args with
  | (_, some e) => Except.error e
  | (s, none) =>
    match s.B_idx, s.B, s.f, s.initial_ground_truth, s.k_ground_truth,
        s._ground_truth, s.initial_u, s.k, s.ground_truth with
    | some bidx, some b, some fv, some ig, some kg, some gt0, some iu, some kk, some gt =>
      Except.ok
        { B_idx := bidx, B := b, f := fv, initial_ground_truth := ig,
          k_ground_truth := kg, _ground_truth := gt0, initial_u := iu,
          k := kk, ground_truth := gt, u := none }
    | _, _, _, _, _, _, _, _, _ => Except.error PyError.attributeError

/-- Embeds `DirichletProblem.compute_solution` (problems.py lines 94–99):
`self.u = im.H_method(net, self.B_idx, self.B, self.f, self.initial_u,
self.k); return self.u`.  On success the updated instance and the returned
field are produced; a fatal solver error propagates and leaves the instance
unchanged. -/
def DirichletProblem.compute_solution (self : DirichletProblem)
    (net : Grid → Grid → Grid) : Except PyError (DirichletProblem × Grid) :=
  match H_method net self.B_idx self.B self.f self.initial_u self.k with
  | some u => Except.ok ({ self with u := some u }, u)
  | none => Except.error PyError.runtimeError

/-! ### Access and totality lemmas for iteration-result construction -/

theorem buildRow_cells {cellFn : Nat → Bool → Option ℚ} :
    ∀ (bs : List Bool) (j0 : Nat) (xs : List ℚ), buildRow cellFn j0 bs = some xs →
      ∀ (j : Nat) (b : Bool), bs[j]? = some b → xs[j]? = cellFn (j0 + j) b := by
  intro bs
  induction bs with
  | nil => intro j0 xs h j b hj; simp at hj
  | cons b0 bs ih =>
    intro j0 xs h j b hj
    cases hc : cellFn j0 b0 with
    | none => simp [buildRow, hc] at h
    | some x =>
      cases hr : buildRow cellFn (j0 + 1) bs with
      | none => simp [buildRow, hc, hr] at h
      | some xs' =>
        simp only [buildRow, hc, hr] at h
        cases h
        cases j with
        | zero =>
          simp only [List.getElem?_cons_zero, Option.some.injEq] at hj
          subst hj
          simpa using hc.symm
        | succ j' =>
          simp only [List.getElem?_cons_succ] at hj
          have := ih (j0 + 1) xs' hr j' b hj
          simpa [Nat.add_assoc, Nat.add_comm 1 j'] using this

theorem buildGrid_rows {cellFn : Nat → Nat → Bool → Option ℚ} :
    ∀ (m : List (List Bool)) (i0 : Nat) (v : Grid), buildGrid cellFn i0 m = some v →
      ∀ (i : Nat) (r : List Bool), m[i]? = some r →
        ∃ xs, v[i]? = some xs ∧ buildRow (cellFn (i0 + i)) 0 r = some xs := by
  intro m
  induction m with
  | nil => intro i0 v h i r hi; simp at hi
  | cons r0 rs ih =>
    intro i0 v h i r hi
    cases hc : buildRow (cellFn i0) 0 r0 with
    | none => simp [buildGrid, hc] at h
    | some xs0 =>
      cases hr : buildGrid cellFn (i0 + 1) rs with
      | none => simp [buildGrid, hc, hr] at h
      | some vs =>
        simp only [buildGrid, hc, hr] at h
        cases h
        cases i with
        | zero =>
          simp only [List.getElem?_cons_zero, Option.some.injEq] at hi
          subst hi
          exact ⟨xs0, by simp, by simpa using hc⟩
        | succ i' =>
          simp only [List.getElem?_cons_succ] at hi
          have := ih (i0 + 1) vs hr i' r hi
          simpa [Nat.add_assoc, Nat.add_comm 1 i'] using this

theorem cell?_buildGrid {cellFn : Nat → Nat → Bool → Option ℚ} {m : Mask} {v : Grid}
    (h : buildGrid cellFn 0 m = some v) {i j : Nat} {b : Bool}
    (hm : cell? m i j = some b) : cell? v i j = cellFn i j b := by
  rcases Option.bind_eq_some.mp hm with ⟨r, hr, hb⟩
  rcases buildGrid_rows m 0 v h i r hr with ⟨xs, hxs, hrow⟩
  have := buildRow_cells r 0 xs (by simpa using hrow) j b hb
  simp only [cell?, hxs, Option.some_bind]
  simpa using this

theorem buildRow_total {cellFn : Nat → Bool → Option ℚ} :
    ∀ (bs : List Bool) (j0 : Nat),
      (∀ (j : Nat) (b : Bool), bs[j]? = some b → (cellFn (j0 + j) b).isSome) →
      ∃ xs, buildRow cellFn j0 bs = some xs ∧ xs.length = bs.length := by
  intro bs
  induction bs with
  | nil => intro j0 _; exact ⟨[], rfl, rfl⟩
  | cons b0 bs ih =>
    intro j0 hall
    have h0 : (cellFn j0 b0).isSome := by simpa using hall 0 b0 (by simp)
    rcases Option.isSome_iff_exists.mp h0 with ⟨x, hx⟩
    rcases ih (j0 + 1) (fun j b hj => by
      have := hall (j + 1) b (by simpa using hj)
      simpa [Nat.add_assoc, Nat.add_comm 1 j] using this) with ⟨xs, hxs, hlen⟩
    exact ⟨x :: xs, by simp [buildRow, hx, hxs], by simp [hlen]⟩

theorem buildGrid_total {cellFn : Nat → Nat → Bool → Option ℚ} :
    ∀ (m : List (List Bool)) (i0 : Nat),
      (∀ (i j : Nat) (b : Bool), cell? m i j = some b → (cellFn (i0 + i) j b).isSome) →
      ∃ v, buildGrid cellFn i0 m = some v ∧ v.length = m.length ∧
        ∀ (i : Nat) (r : List Bool) (xs : List ℚ),
          m[i]? = some r → v[i]? = some xs → xs.length = r.length := by
  intro m
  induction m with
  | nil => intro i0 _; exact ⟨[], rfl, rfl, by intro i r xs hr; simp at hr⟩
  | cons r0 rs ih =>
    intro i0 hall
    have hrow : ∀ (j : Nat) (b : Bool), r0[j]? = some b → (cellFn i0 (0 + j) b).isSome := by
      intro j b hj
      have := hall 0 j b (by simp [cell?, hj])
      simpa [Nat.zero_add] using this
    rcases buildRow_total r0 0 (by simpa using hrow) with ⟨xs0, hxs0, hlen0⟩
    rcases ih (i0 + 1) (fun i j b hc => by
      have := hall (i + 1) j b (by simpa [cell?] using hc)
      simpa [Nat.add_assoc, Nat.add_comm 1 i] using this) with ⟨vs, hvs, hlenv, hrows⟩
    refine ⟨xs0 :: vs, by simp [buildGrid, hxs0, hvs], by simp [hlenv], ?_⟩
    intro i r xs hr hxs
    cases i with
    | zero =>
      simp only [List.getElem?_cons_zero, Option.some.injEq] at hr hxs
      subst hr; subst hxs; exact hlen0
    | succ i' =>
      simp only [List.getElem?_cons_succ] at hr hxs
      exact hrows i' r xs hr hxs

/-! ### Shape lemmas -/

theorem isGrid_mkGrid {α : Type} (N : Nat) (v : Nat → Nat → α) : isGrid N (mkGrid N v) := by
  constructor
  · simp [mkGrid]
  · intro r hr
    simp only [mkGrid, List.mem_map] at hr
    rcases hr with ⟨i, _, hi⟩
    simp [← hi]

theorem cell?_mkGrid {α : Type} {N i j : Nat} (v : Nat → Nat → α) (hi : i < N) (hj : j < N) :
    cell? (mkGrid N v) i j = some (v i j) := by
  simp [cell?, mkGrid, List.getElem?_map, List.getElem?_range, hi, hj]

theorem cell?_isSome_of_isGrid {α : Type} {N : Nat} {g : List (List α)} (hg : isGrid N g)
    {i j : Nat} (hi : i < N) (hj : j < N) : ∃ x, cell? g i j = some x := by
  have hi' : i < g.length := by rw [hg.1]; exact hi
  have hmem : g[i] ∈ g := List.getElem_mem hi'
  have hj' : j < g[i].length := by rw [hg.2 _ hmem]; exact hj
  refine ⟨g[i][j], ?_⟩
  simp [cell?, List.getElem?_eq_getElem hi', List.getElem?_eq_getElem hj']

theorem cell?_lt_of_isGrid {α : Type} {N : Nat} {g : List (List α)} (hg : isGrid N g)
    {i j : Nat} {x : α} (h : cell? g i j = some x) : i < N ∧ j < N := by
  rcases Option.bind_eq_some.mp h with ⟨r, hr, hx⟩
  have hi : i < g.length := (List.getElem?_eq_some_iff.mp hr).1
  have hmem : r ∈ g := List.mem_iff_getElem?.mpr ⟨i, hr⟩
  have hj : j < r.length := (List.getElem?_eq_some_iff.mp hx).1
  exact ⟨by rw [← hg.1]; exact hi, by rw [← hg.2 r hmem]; exact hj⟩

/-! ### Geometry well-formedness -/

/-- A mask whose every unmasked cell is strictly interior to the `N × N`
grid: the stencil of the relaxation solver never has to reference an
out-of-grid neighbour (§4.2). -/
def goodMask (N : Nat) (m : Mask) : Prop :=
  isGrid N m ∧ ∀ i j : Nat, cell? m i j = some false →
    1 ≤ i ∧ i + 1 < N ∧ 1 ≤ j ∧ j + 1 < N

theorem goodMask_square (N : Nat) : goodMask N (square_geometry N).1 := by
  refine ⟨isGrid_mkGrid N _, ?_⟩
  intro i j h
  simp only [square_geometry] at h
  rcases cell?_lt_of_isGrid (isGrid_mkGrid N (fun i j => on_square_boundary N i j)) h
    with ⟨hi, hj⟩
  rw [cell?_mkGrid _ hi hj] at h
  have hb : on_square_boundary N i j = false := Option.some.inj h
  rw [on_square_boundary, decide_eq_false_iff_not] at hb
  push_neg at hb
  omega

theorem goodMask_l_shaped (N : Nat) : goodMask N (l_shaped_geometry N).1 := by
  refine ⟨isGrid_mkGrid N _, ?_⟩
  intro i j h
  simp only [l_shaped_geometry] at h
  rcases cell?_lt_of_isGrid (isGrid_mkGrid N (fun i j => on_l_boundary N i j)) h
    with ⟨hi, hj⟩
  rw [cell?_mkGrid _ hi hj] at h
  have hb : on_l_boundary N i j = false := Option.some.inj h
  rw [on_l_boundary, Bool.or_eq_false_iff] at hb
  have hs : on_square_boundary N i j = false := hb.1
  rw [on_square_boundary, decide_eq_false_iff_not] at hs
  push_neg at hs
  omega

/-! ### Totality of the relaxation solver on well-shaped data -/

theorem jacobi_cell_isSome {N : Nat} {m : Mask} {B f u : Grid}
    (hm : goodMask N m) (hB : isGrid N B) (hf : isGrid N f) (hu : isGrid N u)
    {i j : Nat} {b : Bool} (hc : cell? m i j = some b) :
    (jacobi_cell B f u i j b).isSome := by
  rcases cell?_lt_of_isGrid hm.1 hc with ⟨hi, hj⟩
  cases b with
  | true =>
    rcases cell?_isSome_of_isGrid hB hi hj with ⟨x, hx⟩
    simp [jacobi_cell, hx]
  | false =>
    rcases hm.2 i j hc with ⟨h1, h2, h3, h4⟩
    rcases cell?_isSome_of_isGrid hu (show i - 1 < N by omega) hj with ⟨x1, e1⟩
    rcases cell?_isSome_of_isGrid hu (show i + 1 < N by omega) hj with ⟨x2, e2⟩
    rcases cell?_isSome_of_isGrid hu hi (show j - 1 < N by omega) with ⟨x3, e3⟩
    rcases cell?_isSome_of_isGrid hu hi (show j + 1 < N by omega) with ⟨x4, e4⟩
    rcases cell?_isSome_of_isGrid hf hi hj with ⟨x5, e5⟩
    have hi0 : ¬ i = 0 := by omega
    have hj0 : ¬ j = 0 := by omega
    simp [jacobi_cell, hi0, hj0, e1, e2, e3, e4, e5]

theorem jacobi_iteration_total {N : Nat} {m : Mask} {B f u : Grid}
    (hm : goodMask N m) (hB : isGrid N B) (hf : isGrid N f) (hu : isGrid N u) :
    ∃ v, jacobi_iteration m B f u = some v ∧ isGrid N v := by
  have hcells : ∀ (i j : Nat) (b : Bool), cell? m i j = some b →
      (jacobi_cell B f u (0 + i) j b).isSome := by
    intro i j b hc
    rw [Nat.zero_add]
    exact jacobi_cell_isSome hm hB hf hu hc
  rcases buildGrid_total m 0 hcells with ⟨v, hv, hlen, hrows⟩
  refine ⟨v, by simpa [jacobi_iteration] using hv, ?_, ?_⟩
  · rw [hlen]; exact hm.1.1
  · intro r hr
    rcases List.mem_iff_getElem?.mp hr with ⟨i, hi⟩
    have hiv : i < v.length := (List.getElem?_eq_some_iff.mp hi).1
    have him : i < m.length := by rw [← hlen]; exact hiv
    have hmi : m[i]? = some m[i] := List.getElem?_eq_getElem him
    have hrl := hrows i m[i] r hmi hi
    rw [hrl]
    exact hm.1.2 m[i] (List.getElem_mem him)

theorem jacobi_method_total {N : Nat} {m : Mask} {B f u : Grid}
    (hm : goodMask N m) (hB : isGrid N B) (hf : isGrid N f) (hu : isGrid N u) :
    ∀ k : Nat, ∃ v, jacobi_method m B f u k = some v ∧ isGrid N v := by
  intro k
  induction k with
  | zero => exact ⟨u, rfl, hu⟩
  | succ t ih =>
    rcases ih with ⟨w, hw, hwg⟩
    rcases jacobi_iteration_total hm hB hf hwg with ⟨v, hv, hvg⟩
    exact ⟨v, by simp [jacobi_method, hw, hv], hvg⟩

/-! ### Boundary enforcement at masked cells -/

theorem jacobi_iteration_masked {m : Mask} {B f u v : Grid}
    (h : jacobi_iteration m B f u = some v) {i j : Nat}
    (hm : cell? m i j = some true) : cell? v i j = cell? B i j := by
  rw [jacobi_iteration] at h
  simpa using cell?_buildGrid h hm

theorem H_iteration_masked {net : Grid → Grid → Grid} {m : Mask} {B f u v : Grid}
    (h : H_iteration net m B f u = some v) {i j : Nat}
    (hm : cell? m i j = some true) : cell? v i j = cell? B i j := by
  rw [H_iteration] at h
  simpa using cell?_buildGrid h hm

theorem jacobi_method_masked {m : Mask} {B f u v : Grid} {k : Nat} (hk : 1 ≤ k)
    (h : jacobi_method m B f u k = some v) {i j : Nat}
    (hm : cell? m i j = some true) : cell? v i j = cell? B i j := by
  cases k with
  | zero => omega
  | succ t =>
    rw [jacobi_method] at h
    rcases Option.bind_eq_some.mp h with ⟨w, _, hit⟩
    exact jacobi_iteration_masked hit hm

theorem H_method_masked {net : Grid → Grid → Grid} {m : Mask} {B f u v : Grid} {k : Nat}
    (hk : 1 ≤ k) (h : H_method net m B f u k = some v) {i j : Nat}
    (hm : cell? m i j = some true) : cell? v i j = cell? B i j := by
  cases k with
  | zero => omega
  | succ t =>
    rw [H_method] at h
    rcases Option.bind_eq_some.mp h with ⟨w, _, hit⟩
    exact H_iteration_masked hit hm

/-! ### Characterization of successful construction -/

theorem new_ok_fields (args : InitArgs) (p : DirichletProblem)
    (h : DirichletProblem.new args = Except.ok p) :
    args.B_idx = none ∧
    p.f = args.f.getD (torch_zeros args.N) ∧
    p.initial_ground_truth = args.initial_ground_truth.getD (normal_distributed_tensor args.N) ∧
    p.k_ground_truth = args.k_ground_truth ∧
    p.initial_u = args.initial_u.getD (normal_distributed_tensor args.N) ∧
    p.k = args.k ∧
    p._ground_truth = none ∧
    p.u = none ∧
    jacobi_method p.B_idx p.B p.f p.initial_ground_truth p.k_ground_truth
      = some p.ground_truth ∧
    ((str_lower args.domain_type = "square" ∧
        p.B_idx = (square_geometry args.N).1 ∧ p.B = (square_geometry args.N).2) ∨
     (str_lower args.domain_type = "l_shape" ∧
        p.B_idx = (l_shaped_geometry args.N).1 ∧ p.B = (l_shaped_geometry args.N).2)) := by
  cases hB : args.B_idx with
  | some m =>
    exfalso
    simp [DirichletProblem.new, initState, geomStep, ground_truth_step, hB] at h
  | none =>
    by_cases h1 : str_lower args.domain_type = "square"
    · cases hj : jacobi_method (square_geometry args.N).1 (square_geometry args.N).2
          (args.f.getD (torch_zeros args.N))
          (args.initial_ground_truth.getD (normal_distributed_tensor args.N))
          args.k_ground_truth with
      | none =>
        exfalso
        simp [DirichletProblem.new, initState, geomStep, ground_truth_step, hB, h1, hj] at h
      | some gt =>
        simp [DirichletProblem.new, initState, geomStep, ground_truth_step, hB, h1, hj] at h
        subst h
        exact ⟨rfl, rfl, rfl, rfl, rfl, rfl, rfl, rfl, hj, Or.inl ⟨h1, rfl, rfl⟩⟩
    · by_cases h2 : str_lower args.domain_type = "l_shape"
      · cases hj : jacobi_method (l_shaped_geometry args.N).1 (l_shaped_geometry args.N).2
            (args.f.getD (torch_zeros args.N))
            (args.initial_ground_truth.getD (normal_distributed_tensor args.N))
            args.k_ground_truth with
        | none =>
          exfalso
          simp [DirichletProblem.new, initState, geomStep, ground_truth_step,
            hB, h1, h2, hj] at h
        | some gt =>
          simp [DirichletProblem.new, initState, geomStep, ground_truth_step,
            hB, h1, h2, hj] at h
          subst h
          exact ⟨rfl, rfl, rfl, rfl, rfl, rfl, rfl, rfl, hj, Or.inr ⟨h2, rfl, rfl⟩⟩
      · exfalso
        simp [DirichletProblem.new, initState, geomStep, hB, h1, h2] at h


/-- Equality of construction results is decidable, allowing concrete
construction runs to be checked by evaluation. -/
instance {ε α : Type} [DecidableEq ε] [DecidableEq α] : DecidableEq (Except ε α)
  | Except.error a, Except.error b =>
    if h : a = b then Decidable.isTrue (by rw [h])
    else Decidable.isFalse (by intro hc; cases hc; exact h rfl)
  | Except.error _, Except.ok _ => Decidable.isFalse (by intro hc; cases hc)
  | Except.ok _, Except.error _ => Decidable.isFalse (by intro hc; cases hc)
  | Except.ok a, Except.ok b =>
    if h : a = b then Decidable.isTrue (by rw [h])
    else Decidable.isFalse (by intro hc; cases hc; exact h rfl)

/-! ### Claims -/

/-- C1: the claim states that supplying an explicit boundary mask / boundary
values pair bypasses geometry generation and that the constructed instance
stores and uses the supplied pair.  The code bug: the geometry branch is
indeed skipped, but `__init__` contains no assignment of `self.B_idx` /
`self.B` in that case, so the supplied pair is never stored and the eager
ground-truth computation at line 91 reads the absent attribute `self.B_idx`
and raises `AttributeError`; construction never succeeds with an explicit
pair. -/
theorem explicit_pair_is_never_stored (args : InitArgs) (m : Mask)
    (h : args.B_idx = some m) :
    (initState args).1.B_idx = none ∧ (initState args).1.B = none ∧
    DirichletProblem.new args = Except.error PyError.attributeError := by
  refine ⟨?_, ?_, ?_⟩ <;>
    simp [DirichletProblem.new, initState, geomStep, ground_truth_step, h]

theorem explicit_pair_is_never_stored_witness :
    (initState
      { B_idx := some [[true]], B := some [[(1 : ℚ)]], N := 1, k := 1,
        k_ground_truth := 1 }).1.B_idx = none ∧
    (initState
      { B_idx := some [[true]], B := some [[(1 : ℚ)]], N := 1, k := 1,
        k_ground_truth := 1 }).1.B = none ∧
    DirichletProblem.new
      { B_idx := some [[true]], B := some [[(1 : ℚ)]], N := 1, k := 1,
        k_ground_truth := 1 } = Except.error PyError.attributeError :=
  explicit_pair_is_never_stored
    { B_idx := some [[true]], B := some [[(1 : ℚ)]], N := 1, k := 1, k_ground_truth := 1 }
    [[true]] rfl

/-- C2 (counterexample): the claim as stated is false in two ways.  First,
the selector "SQUARE" is not one of the recognized values "square" /
"l_shape", yet construction succeeds (the source lowercases the selector
before comparing).  Second, when an explicit mask is supplied together with
an unrecognized selector, construction fails with `AttributeError` rather
than the `ValueError` of the geometry dispatch, and attributes (for example
`self.k`) have already been assigned when the error is raised. -/
theorem unrecognized_domain_counterexample :
    ("SQUARE" ≠ "square" ∧ "SQUARE" ≠ "l_shape") ∧
    (initState { domain_type := "SQUARE", N := 2, k := 1, k_ground_truth := 1 }).2 = none ∧
    (initState
      { B_idx := some [[true]], B := some [[(1 : ℚ)]], domain_type := "hexagon",
        N := 1, k := 1, k_ground_truth := 1 }).2 = some PyError.attributeError ∧
    (initState
      { B_idx := some [[true]], B := some [[(1 : ℚ)]], domain_type := "hexagon",
        N := 1, k := 1, k_ground_truth := 1 }).1.k = some 1 :=
  ⟨by decide, by decide, by decide, by decide⟩

/-- C2 (amended): for every construction call in which no explicit boundary
mask is supplied and whose domain-shape selector does not lowercase to
"square" or "l_shape", construction fails with the `ValueError`
(InvalidConfiguration) of the geometry dispatch, and no attribute of the
instance has been assigned when the error is raised. -/
theorem unrecognized_domain_fails_before_any_assignment (args : InitArgs)
    (hB : args.B_idx = none)
    (h1 : ¬ str_lower args.domain_type = "square")
    (h2 : ¬ str_lower args.domain_type = "l_shape") :
    initState args = (({} : PartialInstance), some PyError.valueError) ∧
    DirichletProblem.new args = Except.error PyError.valueError := by
  constructor <;> simp [DirichletProblem.new, initState, geomStep, hB, h1, h2]

theorem unrecognized_domain_fails_before_any_assignment_witness :
    initState { domain_type := "circle" } = (({} : PartialInstance), some PyError.valueError) ∧
    DirichletProblem.new { domain_type := "circle" } = Except.error PyError.valueError :=
  unrecognized_domain_fails_before_any_assignment { domain_type := "circle" }
    rfl (by decide) (by decide)

/-- C3: `compute_solution(net)` invokes the hybrid solver with exactly the
stored mask, boundary values, right-hand side, initial approximate field and
approximate iteration count, together with the caller-supplied operator;
it caches the resulting field in `self.u` and returns that same field.
The call is re-entrant: it behaves identically from any previously cached
approximate solution `u0`, overwriting the cache with the freshly computed
field rather than returning a memoized one. -/
theorem compute_solution_invokes_H_method (p : DirichletProblem)
    (net : Grid → Grid → Grid) (usol : Grid)
    (h : H_method net p.B_idx p.B p.f p.initial_u p.k = some usol) :
    ∀ u0 : Option Grid,
      DirichletProblem.compute_solution { p with u := u0 } net
        = Except.ok ({ p with u := some usol }, usol) := by
  intro u0
  simp [DirichletProblem.compute_solution, h]

theorem compute_solution_invokes_H_method_witness :
    DirichletProblem.compute_solution
      { B_idx := [[true]], B := [[(5 : ℚ)]], f := [[0]], initial_ground_truth := [[0]],
        k_ground_truth := 1, _ground_truth := none, initial_u := [[7]], k := 1,
        ground_truth := [[5]], u := some [[9]] }
      (fun _ _ => [[0]])
    = Except.ok
        ({ B_idx := [[true]], B := [[(5 : ℚ)]], f := [[0]], initial_ground_truth := [[0]],
           k_ground_truth := 1, _ground_truth := none, initial_u := [[7]], k := 1,
           ground_truth := [[5]], u := some [[5]] }, [[5]]) :=
  compute_solution_invokes_H_method
    { B_idx := [[true]], B := [[(5 : ℚ)]], f := [[0]], initial_ground_truth := [[0]],
      k_ground_truth := 1, _ground_truth := none, initial_u := [[7]], k := 1,
      ground_truth := [[5]], u := none }
    (fun _ _ => [[0]]) [[5]] (by decide) (some [[9]])

/-- C4: every successful construction stores a ground-truth solution that is
exactly the result of the relaxation (Jacobi) solver applied to the stored
mask, boundary values, right-hand side, initial ground-truth field and
ground-truth iteration count (themselves the supplied or defaulted
arguments); the computation happens eagerly inside `__init__`, before
construction returns. -/
theorem ground_truth_computed_eagerly_by_jacobi (args : InitArgs)
    (p : DirichletProblem) (h : DirichletProblem.new args = Except.ok p) :
    jacobi_method p.B_idx p.B p.f p.initial_ground_truth p.k_ground_truth
      = some p.ground_truth ∧
    p.k_ground_truth = args.k_ground_truth ∧
    p.initial_ground_truth
      = args.initial_ground_truth.getD (normal_distributed_tensor args.N) ∧
    p.f = args.f.getD (torch_zeros args.N) := by
  rcases new_ok_fields args p h with ⟨_, hf, hig, hkg, _, _, _, _, hjac, _⟩
  exact ⟨hjac, hkg, hig, hf⟩

unseal Rat.add Rat.mul Rat.inv Rat.sub in
theorem ground_truth_computed_eagerly_by_jacobi_witness :
    DirichletProblem.new { N := 2, k_ground_truth := 1 } = Except.ok
      { B_idx := [[true, true], [true, true]], B := [[(1 : ℚ), 1], [1, 1]],
        f := [[0, 0], [0, 0]], initial_ground_truth := [[1/2, 1/2], [1/2, 1/2]],
        k_ground_truth := 1, _ground_truth := none,
        initial_u := [[1/2, 1/2], [1/2, 1/2]], k := 20,
        ground_truth := [[1, 1], [1, 1]], u := none } ∧
    jacobi_method [[true, true], [true, true]] [[(1 : ℚ), 1], [1, 1]] [[0, 0], [0, 0]]
      [[1/2, 1/2], [1/2, 1/2]] 1 = some [[1, 1], [1, 1]] := by
  have hnew : DirichletProblem.new { N := 2, k_ground_truth := 1 } = Except.ok
      { B_idx := [[true, true], [true, true]], B := [[(1 : ℚ), 1], [1, 1]],
        f := [[0, 0], [0, 0]], initial_ground_truth := [[1/2, 1/2], [1/2, 1/2]],
        k_ground_truth := 1, _ground_truth := none,
        initial_u := [[1/2, 1/2], [1/2, 1/2]], k := 20,
        ground_truth := [[1, 1], [1, 1]], u := none } := by decide
  exact ⟨hnew, (ground_truth_computed_eagerly_by_jacobi _ _ hnew).1⟩

/-- C5: boundary invariant.  For every iteration count at least 1 of either
solver, and for every masked cell, the field produced by the solver carries
exactly the boundary value at that cell — for the hybrid solver this holds
for every external operator whatsoever, since boundary enforcement is local
and never delegated. -/
theorem solvers_enforce_boundary_every_iteration
    (net : Grid → Grid → Grid) (B_idx : Mask) (B f u1 u2 v w : Grid)
    (k1 k2 i j : Nat) (hk1 : 1 ≤ k1) (hk2 : 1 ≤ k2)
    (hv : jacobi_method B_idx B f u1 k1 = some v)
    (hw : H_method net B_idx B f u2 k2 = some w)
    (hm : cell? B_idx i j = some true) :
    cell? v i j = cell? B i j ∧ cell? w i j = cell? B i j :=
  ⟨jacobi_method_masked hk1 hv hm, H_method_masked hk2 hw hm⟩

unseal Rat.add Rat.mul Rat.inv Rat.sub in
theorem solvers_enforce_boundary_every_iteration_witness :
    cell? [[(1 : ℚ), 1, 1], [1, 0, 1], [1, 1, 1]] 0 1
      = cell? [[(1 : ℚ), 1, 1], [1, 0, 1], [1, 1, 1]] 0 1 ∧
    cell? [[(1 : ℚ), 1, 1], [1, 0, 1], [1, 1, 1]] 0 1
      = cell? [[(1 : ℚ), 1, 1], [1, 0, 1], [1, 1, 1]] 0 1 :=
  solvers_enforce_boundary_every_iteration
    (fun _ _ => [[0, 0, 0], [0, 0, 0], [0, 0, 0]])
    [[true, true, true], [true, false, true], [true, true, true]]
    [[(1 : ℚ), 1, 1], [1, 0, 1], [1, 1, 1]]
    [[0, 0, 0], [0, 0, 0], [0, 0, 0]]
    [[0, 0, 0], [0, 0, 0], [0, 0, 0]]
    [[0, 0, 0], [0, 0, 0], [0, 0, 0]]
    [[(1 : ℚ), 1, 1], [1, 0, 1], [1, 1, 1]]
    [[(1 : ℚ), 1, 1], [1, 0, 1], [1, 1, 1]]
    1 1 0 1 (by decide) (by decide) (by decide) (by decide) (by decide)

/-- C6: frame property of `compute_solution`.  A successful call writes only
the cached approximate-solution attribute `u`; the mask, boundary values,
right-hand side, both initial fields, both iteration counts, the memoized
ground truth and the `_ground_truth` placeholder of the returned instance
are all unchanged. -/
theorem compute_solution_writes_only_u (p : DirichletProblem)
    (net : Grid → Grid → Grid) (q : DirichletProblem) (r : Grid)
    (h : DirichletProblem.compute_solution p net = Except.ok (q, r)) :
    q.B_idx = p.B_idx ∧ q.B = p.B ∧ q.f = p.f ∧
    q.initial_ground_truth = p.initial_ground_truth ∧
    q.k_ground_truth = p.k_ground_truth ∧ q.initial_u = p.initial_u ∧
    q.k = p.k ∧ q.ground_truth = p.ground_truth ∧
    q._ground_truth = p._ground_truth ∧ q.u = some r := by
  rw [DirichletProblem.compute_solution] at h
  cases hH : H_method net p.B_idx p.B p.f p.initial_u p.k with
  | none => rw [hH] at h; exact absurd h (by simp)
  | some usol =>
    rw [hH] at h
    simp only [Except.ok.injEq, Prod.mk.injEq] at h
    obtain ⟨hq, hr⟩ := h
    subst hr
    subst hq
    exact ⟨rfl, rfl, rfl, rfl, rfl, rfl, rfl, rfl, rfl, rfl⟩

unseal Rat.add Rat.mul Rat.inv Rat.sub in
theorem compute_solution_writes_only_u_witness :
    ({ B_idx := [[true]], B := [[(2 : ℚ)]], f := [[0]], initial_ground_truth := [[0]],
       k_ground_truth := 1, _ground_truth := none, initial_u := [[3]], k := 1,
       ground_truth := [[2]], u := some [[2]] } : DirichletProblem).ground_truth
      = ({ B_idx := [[true]], B := [[(2 : ℚ)]], f := [[0]], initial_ground_truth := [[0]],
           k_ground_truth := 1, _ground_truth := none, initial_u := [[3]], k := 1,
           ground_truth := [[2]], u := none } : DirichletProblem).ground_truth ∧
    ({ B_idx := [[true]], B := [[(2 : ℚ)]], f := [[0]], initial_ground_truth := [[0]],
       k_ground_truth := 1, _ground_truth := none, initial_u := [[3]], k := 1,
       ground_truth := [[2]], u := some [[2]] } : DirichletProblem).u = some [[2]] := by
  obtain ⟨h1, h2, h3, h4, h5, h6, h7, h8, h9, h10⟩ :=
    compute_solution_writes_only_u
      { B_idx := [[true]], B := [[(2 : ℚ)]], f := [[0]], initial_ground_truth := [[0]],
        k_ground_truth := 1, _ground_truth := none, initial_u := [[3]], k := 1,
        ground_truth := [[2]], u := none }
      (fun u _ => u)
      { B_idx := [[true]], B := [[(2 : ℚ)]], f := [[0]], initial_ground_truth := [[0]],
        k_ground_truth := 1, _ground_truth := none, initial_u := [[3]], k := 1,
        ground_truth := [[2]], u := some [[2]] }
      [[2]] (by decide)
  exact ⟨h8, h10⟩

/-- C7: defaults of the construction options.  Each omitted option takes its
documented default — grid size 16, domain shape "square", approximate
iteration count 20, ground-truth iteration count 1000, no explicit
mask/values/fields — and on any successful construction an omitted
right-hand side is stored as the all-zero `N × N` field while the stored
iteration counts are exactly the (supplied or defaulted) arguments. -/
theorem constructor_defaults :
    ({} : InitArgs).k = 20 ∧ ({} : InitArgs).k_ground_truth = 1000 ∧
    ({} : InitArgs).N = 16 ∧ ({} : InitArgs).domain_type = "square" ∧
    ({} : InitArgs).f = none ∧ ({} : InitArgs).B_idx = none ∧
    ∀ (args : InitArgs) (p : DirichletProblem),
      DirichletProblem.new args = Except.ok p →
      (args.f = none → p.f = torch_zeros args.N) ∧
      p.k = args.k ∧ p.k_ground_truth = args.k_ground_truth := by
  refine ⟨rfl, rfl, rfl, rfl, rfl, rfl, ?_⟩
  intro args p h
  rcases new_ok_fields args p h with ⟨_, hf, _, hkg, _, hk, _⟩
  refine ⟨?_, hk, hkg⟩
  intro hfo
  rw [hf, hfo]
  rfl

unseal Rat.add Rat.mul Rat.inv Rat.sub in
theorem constructor_defaults_witness :
    ∃ p, DirichletProblem.new { N := 2, k_ground_truth := 1 } = Except.ok p ∧
      p.f = torch_zeros 2 ∧ p.k = 20 ∧ p.k_ground_truth = 1 := by
  have hnew : DirichletProblem.new { N := 2, k_ground_truth := 1 } = Except.ok
      { B_idx := [[true, true], [true, true]], B := [[(1 : ℚ), 1], [1, 1]],
        f := [[0, 0], [0, 0]], initial_ground_truth := [[1/2, 1/2], [1/2, 1/2]],
        k_ground_truth := 1, _ground_truth := none,
        initial_u := [[1/2, 1/2], [1/2, 1/2]], k := 20,
        ground_truth := [[1, 1], [1, 1]], u := none } := by decide
  obtain ⟨hf, hk, hkg⟩ := constructor_defaults.2.2.2.2.2.2 _ _ hnew
  exact ⟨_, hnew, hf rfl, hk, hkg⟩

/-- C8 (counterexample): the claim quantifies over every supplied field *or
mask* with mismatched dimensions and asserts that the constructor accepts
and stores it, the error arising only at first stencil use.  For a supplied
mask this is false: a 1×1 mask supplied with grid size 2 is never stored at
all (the constructor has no assignment for a supplied pair, the bug of the
explicit-pair claim), and the construction call fails with `AttributeError`
— an error of attribute lookup, not of a stencil application on the
mismatched mask. -/
theorem shape_mismatch_counterexample :
    (initState
      { B_idx := some [[true]], B := some [[(1 : ℚ)]], N := 2, k := 1,
        k_ground_truth := 1 }).1.B_idx = none ∧
    DirichletProblem.new
      { B_idx := some [[true]], B := some [[(1 : ℚ)]], N := 2, k := 1,
        k_ground_truth := 1 } = Except.error PyError.attributeError :=
  ⟨by decide, by decide⟩

/-- C8 (amended): for every supplied grid field (right-hand side or initial
field) whose dimensions disagree with the grid size, the constructor
performs no shape validation and stores the field exactly as given; the
error is detected only at first use inside a solver call — a failing
relaxation solve makes the construction call fail fatally with the solver's
error, and a failing hybrid solve makes `compute_solution` fail fatally —
with no internal recovery.  (Supplied masks are excluded: by the
explicit-pair bug they are never stored at all.) -/
theorem shape_errors_surface_in_solver (args : InitArgs)
    (hB : args.B_idx = none) (h1 : str_lower args.domain_type = "square") :
    (initState args).1.f = some (args.f.getD (torch_zeros args.N)) ∧
    (initState args).1.initial_ground_truth
      = some (args.initial_ground_truth.getD (normal_distributed_tensor args.N)) ∧
    (initState args).1.initial_u
      = some (args.initial_u.getD (normal_distributed_tensor args.N)) ∧
    (jacobi_method (square_geometry args.N).1 (square_geometry args.N).2
        (args.f.getD (torch_zeros args.N))
        (args.initial_ground_truth.getD (normal_distributed_tensor args.N))
        args.k_ground_truth = none →
      DirichletProblem.new args = Except.error PyError.runtimeError) ∧
    ∀ (p : DirichletProblem) (net : Grid → Grid → Grid),
      H_method net p.B_idx p.B p.f p.initial_u p.k = none →
      DirichletProblem.compute_solution p net = Except.error PyError.runtimeError := by
  refine ⟨?_, ?_, ?_, ?_, ?_⟩
  · cases hj : jacobi_method (square_geometry args.N).1 (square_geometry args.N).2
        (args.f.getD (torch_zeros args.N))
        (args.initial_ground_truth.getD (normal_distributed_tensor args.N))
        args.k_ground_truth with
    | none => simp [initState, geomStep, ground_truth_step, hB, h1, hj]
    | some gt => simp [initState, geomStep, ground_truth_step, hB, h1, hj]
  · cases hj : jacobi_method (square_geometry args.N).1 (square_geometry args.N).2
        (args.f.getD (torch_zeros args.N))
        (args.initial_ground_truth.getD (normal_distributed_tensor args.N))
        args.k_ground_truth with
    | none => simp [initState, geomStep, ground_truth_step, hB, h1, hj]
    | some gt => simp [initState, geomStep, ground_truth_step, hB, h1, hj]
  · cases hj : jacobi_method (square_geometry args.N).1 (square_geometry args.N).2
        (args.f.getD (torch_zeros args.N))
        (args.initial_ground_truth.getD (normal_distributed_tensor args.N))
        args.k_ground_truth with
    | none => simp [initState, geomStep, ground_truth_step, hB, h1, hj]
    | some gt => simp [initState, geomStep, ground_truth_step, hB, h1, hj]
  · intro hj
    simp [DirichletProblem.new, initState, geomStep, ground_truth_step, hB, h1, hj]
  · intro p net hH
    simp [DirichletProblem.compute_solution, hH]

unseal Rat.add Rat.mul Rat.inv Rat.sub in
theorem shape_errors_surface_in_solver_witness :
    (initState { f := some [[]], N := 3, k := 1, k_ground_truth := 1 }).1.f = some [[]] ∧
    DirichletProblem.new { f := some [[]], N := 3, k := 1, k_ground_truth := 1 }
      = Except.error PyError.runtimeError ∧
    DirichletProblem.compute_solution
      { B_idx := [[false]], B := [[(1 : ℚ)]], f := [[0]], initial_ground_truth := [[0]],
        k_ground_truth := 1, _ground_truth := none, initial_u := [[0]], k := 1,
        ground_truth := [[1]], u := none }
      (fun _ _ => []) = Except.error PyError.runtimeError := by
  obtain ⟨c1, _, _, c4, c5⟩ :=
    shape_errors_surface_in_solver { f := some [[]], N := 3, k := 1, k_ground_truth := 1 }
      rfl (by decide)
  refine ⟨c1, c4 (by decide), ?_⟩
  exact c5
    { B_idx := [[false]], B := [[(1 : ℚ)]], f := [[0]], initial_ground_truth := [[0]],
      k_ground_truth := 1, _ground_truth := none, initial_u := [[0]], k := 1,
      ground_truth := [[1]], u := none }
    (fun _ _ => []) (by decide)

/-- C9: the domain-shape selector is matched case-insensitively.  For every
string that lowercases to "square" or "l_shape", construction with no
explicit mask (and any grid size and iteration counts, the other options
left at their defaults) succeeds and stores the mask and boundary values of
the corresponding geometry. -/
theorem domain_selector_matched_case_insensitively (s : String) (n kk kg : Nat)
    (g : Mask × Grid)
    (hg : (str_lower s = "square" ∧ g = square_geometry n) ∨
          (str_lower s = "l_shape" ∧ g = l_shaped_geometry n)) :
    ∃ p, DirichletProblem.new { domain_type := s, N := n, k := kk, k_ground_truth := kg }
        = Except.ok p ∧ p.B_idx = g.1 ∧ p.B = g.2 := by
  rcases hg with ⟨hs, rfl⟩ | ⟨hs, rfl⟩
  · have hBg : isGrid n (square_geometry n).2 := isGrid_mkGrid n _
    have hfg : isGrid n (torch_zeros n) := isGrid_mkGrid n _
    have hug : isGrid n (normal_distributed_tensor n) := isGrid_mkGrid n _
    rcases jacobi_method_total (goodMask_square n) hBg hfg hug kg with ⟨gt, hgt, _⟩
    refine ⟨{ B_idx := (square_geometry n).1, B := (square_geometry n).2,
              f := torch_zeros n, initial_ground_truth := normal_distributed_tensor n,
              k_ground_truth := kg, _ground_truth := none,
              initial_u := normal_distributed_tensor n, k := kk,
              ground_truth := gt, u := none }, ?_, rfl, rfl⟩
    simp [DirichletProblem.new, initState, geomStep, ground_truth_step, hs, hgt]
  · have hBg : isGrid n (l_shaped_geometry n).2 := isGrid_mkGrid n _
    have hfg : isGrid n (torch_zeros n) := isGrid_mkGrid n _
    have hug : isGrid n (normal_distributed_tensor n) := isGrid_mkGrid n _
    rcases jacobi_method_total (goodMask_l_shaped n) hBg hfg hug kg with ⟨gt, hgt, _⟩
    refine ⟨{ B_idx := (l_shaped_geometry n).1, B := (l_shaped_geometry n).2,
              f := torch_zeros n, initial_ground_truth := normal_distributed_tensor n,
              k_ground_truth := kg, _ground_truth := none,
              initial_u := normal_distributed_tensor n, k := kk,
              ground_truth := gt, u := none }, ?_, rfl, rfl⟩
    simp [DirichletProblem.new, initState, geomStep, ground_truth_step, hs, hgt]

theorem domain_selector_matched_case_insensitively_witness :
    (∃ p, DirichletProblem.new { domain_type := "Square", N := 2, k := 1, k_ground_truth := 1 }
        = Except.ok p ∧ p.B_idx = (square_geometry 2).1 ∧ p.B = (square_geometry 2).2) ∧
    ∃ p, DirichletProblem.new { domain_type := "L_SHAPE", N := 3, k := 1, k_ground_truth := 1 }
        = Except.ok p ∧ p.B_idx = (l_shaped_geometry 3).1 ∧ p.B = (l_shaped_geometry 3).2 :=
  ⟨domain_selector_matched_case_insensitively "Square" 2 1 1 (square_geometry 2)
      (Or.inl ⟨by decide, rfl⟩),
   domain_selector_matched_case_insensitively "L_SHAPE" 3 1 1 (l_shaped_geometry 3)
      (Or.inr ⟨by decide, rfl⟩)⟩

/-- C10: every call of `compute_solution` starts the hybrid iteration from
the stored initial approximate field, never from the previously cached
approximate solution: the call's behaviour is independent of the cached
field, and a repeated call on the returned instance with the same (pure)
operator produces exactly the same result instead of continuing or refining
the previous solution. -/
theorem compute_solution_restarts_from_initial_u (p : DirichletProblem)
    (net : Grid → Grid → Grid) :
    (∀ u0 : Option Grid,
      DirichletProblem.compute_solution { p with u := u0 } net
        = DirichletProblem.compute_solution p net) ∧
    ∀ (q : DirichletProblem) (r : Grid),
      DirichletProblem.compute_solution p net = Except.ok (q, r) →
      DirichletProblem.compute_solution q net = Except.ok (q, r) := by
  constructor
  · intro u0; rfl
  · intro q r h
    rw [DirichletProblem.compute_solution] at h
    cases hH : H_method net p.B_idx p.B p.f p.initial_u p.k with
    | none => rw [hH] at h; exact absurd h (by simp)
    | some usol =>
      rw [hH] at h
      simp only [Except.ok.injEq, Prod.mk.injEq] at h
      obtain ⟨hq, hr⟩ := h
      subst hr
      subst hq
      simp [DirichletProblem.compute_solution, hH]

unseal Rat.add Rat.mul Rat.inv Rat.sub in
theorem compute_solution_restarts_from_initial_u_witness :
    DirichletProblem.compute_solution
      { B_idx := [[true]], B := [[(4 : ℚ)]], f := [[0]], initial_ground_truth := [[0]],
        k_ground_truth := 1, _ground_truth := none, initial_u := [[6]], k := 1,
        ground_truth := [[4]], u := some [[8]] } (fun u _ => u)
      = DirichletProblem.compute_solution
          { B_idx := [[true]], B := [[(4 : ℚ)]], f := [[0]], initial_ground_truth := [[0]],
            k_ground_truth := 1, _ground_truth := none, initial_u := [[6]], k := 1,
            ground_truth := [[4]], u := none } (fun u _ => u) ∧
    DirichletProblem.compute_solution
      { B_idx := [[true]], B := [[(4 : ℚ)]], f := [[0]], initial_ground_truth := [[0]],
        k_ground_truth := 1, _ground_truth := none, initial_u := [[6]], k := 1,
        ground_truth := [[4]], u := some [[4]] } (fun u _ => u)
      = Except.ok
          ({ B_idx := [[true]], B := [[(4 : ℚ)]], f := [[0]], initial_ground_truth := [[0]],
             k_ground_truth := 1, _ground_truth := none, initial_u := [[6]], k := 1,
             ground_truth := [[4]], u := some [[4]] }, [[4]]) :=
  ⟨(compute_solution_restarts_from_initial_u
      { B_idx := [[true]], B := [[(4 : ℚ)]], f := [[0]], initial_ground_truth := [[0]],
        k_ground_truth := 1, _ground_truth := none, initial_u := [[6]], k := 1,
        ground_truth := [[4]], u := none } (fun u _ => u)).1 (some [[8]]),
   (compute_solution_restarts_from_initial_u
      { B_idx := [[true]], B := [[(4 : ℚ)]], f := [[0]], initial_ground_truth := [[0]],
        k_ground_truth := 1, _ground_truth := none, initial_u := [[6]], k := 1,
        ground_truth := [[4]], u := none } (fun u _ => u)).2
      { B_idx := [[true]], B := [[(4 : ℚ)]], f := [[0]], initial_ground_truth := [[0]],
        k_ground_truth := 1, _ground_truth := none, initial_u := [[6]], k := 1,
        ground_truth := [[4]], u := some [[4]] } [[4]] (by decide)⟩
